import Mathlib

/-!
Verification of the bcm283x-linux-gpio register abstraction layer.

The definitions below are a shallow embedding of the repository's source:
  - src/lib.rs      : PinFunction, PullMode, assert_pin_index, the Rpio
                      per-pin helpers read_level / set_level;
  - src/register.rs : the Register enumeration (byte offsets into the
                      256-word control block) and its banked constructors;
  - src/read.rs     : GpioState decoding (read_pin_bits and the per-pin
                      accessors, PinInfo, pin, pins);
  - src/write.rs    : GpioConfig / GpioPullConfig batches and their apply
                      routines, embedded as generators of a trace of
                      register operations (Op), plus a state semantics
                      run_op / run_trace interpreting a trace on an
                      explicit 256-word control block.

Machine integers are modelled as Nat: u32 values stay below 2 ^ 32 by
construction or by explicit hypothesis, bitwise complement on u32 is
u32not, and the wrapping of a u32 shift is an explicit % 2 ^ 32.
Rust panics (assert_pin_index, out-of-range register constructors,
out-of-bounds array indexing in the batch setters) are modelled as Option
with none for the panic.  Note: src/write.rs names the function type
PinMode; the crate root only defines PinFunction, so the embedding uses
PinFunction throughout, as the spec does.
-/

/-- Bitwise complement of a 32-bit value (Rust `!x` on u32). -/
def u32not (v : Nat) : Nat := 0xFFFFFFFF ^^^ v

/-- The function of a GPIO pin (src/lib.rs, enum PinFunction). -/
inductive PinFunction where
  | Input
  | Output
  | Alt0
  | Alt1
  | Alt2
  | Alt3
  | Alt4
  | Alt5
deriving DecidableEq

/-- A pull up/down mode for a GPIO pin (src/lib.rs, enum PullMode). -/
inductive PullMode where
  | Float
  | PullDown
  | PullUp
deriving DecidableEq

/-- Decoding of a 3-bit function-select field (src/lib.rs, PinFunction::try_from_bits);
the Err case of the Rust Result is none. -/
def PinFunction.try_from_bits (bits : Nat) : Option PinFunction :=
  match bits with
  | 0b000 => some PinFunction.Input
  | 0b001 => some PinFunction.Output
  | 0b100 => some PinFunction.Alt0
  | 0b101 => some PinFunction.Alt1
  | 0b110 => some PinFunction.Alt2
  | 0b111 => some PinFunction.Alt3
  | 0b011 => some PinFunction.Alt4
  | 0b010 => some PinFunction.Alt5
  | _     => none

/-- Encoding of a pin function as its 3-bit hardware code (src/lib.rs, PinFunction::to_bits). -/
def PinFunction.to_bits : PinFunction → Nat
  | PinFunction.Input  => 0b000
  | PinFunction.Output => 0b001
  | PinFunction.Alt0   => 0b100
  | PinFunction.Alt1   => 0b101
  | PinFunction.Alt2   => 0b110
  | PinFunction.Alt3   => 0b111
  | PinFunction.Alt4   => 0b011
  | PinFunction.Alt5   => 0b010

/-- The GPIO registers of the BCM283x control block (src/register.rs, enum Register).
Each carries its byte offset via Register.addr below. -/
inductive Register where
  | GPFSEL0
  | GPFSEL1
  | GPFSEL2
  | GPFSEL3
  | GPFSEL4
  | GPFSEL5
  | GPSET0
  | GPSET1
  | GPCLR0
  | GPCLR1
  | GPLEV0
  | GPLEV1
  | GPEDS0
  | GPEDS1
  | GPREN0
  | GPREN1
  | GPFEN0
  | GPFEN1
  | GPHEN0
  | GPHEN1
  | GPLEN0
  | GPLEN1
  | GPAREN0
  | GPAREN1
  | GPAFEN0
  | GPAFEN1
  | GPPUD
  | GPPUDCLK0
  | GPPUDCLK1
deriving DecidableEq

/-- Byte offset of a register into the control block (the discriminant values of
enum Register in src/register.rs). -/
def Register.addr : Register → Nat
  | .GPFSEL0 => 0x00
  | .GPFSEL1 => 0x04
  | .GPFSEL2 => 0x08
  | .GPFSEL3 => 0x0C
  | .GPFSEL4 => 0x10
  | .GPFSEL5 => 0x14
  | .GPSET0  => 0x1C
  | .GPSET1  => 0x20
  | .GPCLR0  => 0x28
  | .GPCLR1  => 0x2C
  | .GPLEV0  => 0x34
  | .GPLEV1  => 0x38
  | .GPEDS0  => 0x40
  | .GPEDS1  => 0x44
  | .GPREN0  => 0x4C
  | .GPREN1  => 0x50
  | .GPFEN0  => 0x58
  | .GPFEN1  => 0x5C
  | .GPHEN0  => 0x64
  | .GPHEN1  => 0x68
  | .GPLEN0  => 0x70
  | .GPLEN1  => 0x74
  | .GPAREN0 => 0x7C
  | .GPAREN1 => 0x80
  | .GPAFEN0 => 0x88
  | .GPAFEN1 => 0x8C
  | .GPPUD     => 0x94
  | .GPPUDCLK0 => 0x98
  | .GPPUDCLK1 => 0x9C

/-- Word index of a register in the 256-word control block (registers are 32 bit,
so the byte offset is divided by 4; src/read.rs read_pin_bits does the same). -/
def Register.word (r : Register) : Nat := r.addr / 4

/-- Function-select register for a bank index (src/register.rs, Register::fsel);
the panic arm for an index outside [0,6) is none. -/
def Register.fsel (index : Nat) : Option Register :=
  match index with
  | 0 => some Register.GPFSEL0
  | 1 => some Register.GPFSEL1
  | 2 => some Register.GPFSEL2
  | 3 => some Register.GPFSEL3
  | 4 => some Register.GPFSEL4
  | 5 => some Register.GPFSEL5
  | _ => none

/-- Set-strobe register for a bank index (src/register.rs, Register::set). -/
def Register.set (index : Nat) : Option Register :=
  match index with
  | 0 => some Register.GPSET0
  | 1 => some Register.GPSET1
  | _ => none

/-- Clear-strobe register for a bank index (src/register.rs, Register::clr). -/
def Register.clr (index : Nat) : Option Register :=
  match index with
  | 0 => some Register.GPCLR0
  | 1 => some Register.GPCLR1
  | _ => none

/-- Level register for a bank index (src/register.rs, Register::lev). -/
def Register.lev (index : Nat) : Option Register :=
  match index with
  | 0 => some Register.GPLEV0
  | 1 => some Register.GPLEV1
  | _ => none

/-- Event register for a bank index (src/register.rs, Register::eds). -/
def Register.eds (index : Nat) : Option Register :=
  match index with
  | 0 => some Register.GPEDS0
  | 1 => some Register.GPEDS1
  | _ => none

/-- Rise-detect register for a bank index (src/register.rs, Register::ren). -/
def Register.ren (index : Nat) : Option Register :=
  match index with
  | 0 => some Register.GPREN0
  | 1 => some Register.GPREN1
  | _ => none

/-- Fall-detect register for a bank index (src/register.rs, Register::fen). -/
def Register.fen (index : Nat) : Option Register :=
  match index with
  | 0 => some Register.GPFEN0
  | 1 => some Register.GPFEN1
  | _ => none

/-- High-detect register for a bank index (src/register.rs, Register::hen). -/
def Register.hen (index : Nat) : Option Register :=
  match index with
  | 0 => some Register.GPHEN0
  | 1 => some Register.GPHEN1
  | _ => none

/-- Low-detect register for a bank index (src/register.rs, Register::len). -/
def Register.len (index : Nat) : Option Register :=
  match index with
  | 0 => some Register.GPLEN0
  | 1 => some Register.GPLEN1
  | _ => none

/-- Async-rise-detect register for a bank index (src/register.rs, Register::aren). -/
def Register.aren (index : Nat) : Option Register :=
  match index with
  | 0 => some Register.GPAREN0
  | 1 => some Register.GPAREN1
  | _ => none

/-- Async-fall-detect register for a bank index (src/register.rs, Register::afen). -/
def Register.afen (index : Nat) : Option Register :=
  match index with
  | 0 => some Register.GPAFEN0
  | 1 => some Register.GPAFEN1
  | _ => none

/-- Pull-clock register for a bank index (src/register.rs, Register::pudclk). -/
def Register.pudclk (index : Nat) : Option Register :=
  match index with
  | 0 => some Register.GPPUDCLK0
  | 1 => some Register.GPPUDCLK1
  | _ => none

/-- Pin index precondition (src/lib.rs, assert_pin_index); panic for an index
above 53 is none. -/
def assert_pin_index (index : Nat) : Option Unit :=
  if index ≤ 53 then some () else none

/-- Decoded view of one pin (src/read.rs, struct PinInfo). -/
structure PinInfo where
  function : PinFunction
  level : Bool
  event : Bool
  detect_rise : Bool
  detect_fall : Bool
  detect_high : Bool
  detect_low : Bool
  detect_async_rise : Bool
  detect_async_fall : Bool
deriving DecidableEq

/-- A snapshot of the raw 256-word control block (src/read.rs, struct GpioState).
The words are indexed by their word index; each word is a u32. -/
structure GpioState where
  data : Nat → Nat

/-- Construction from raw data (src/read.rs, GpioState::from_data). -/
def GpioState.from_data (data : Nat → Nat) : GpioState := ⟨data⟩

/-- Bit-field extraction for one pin (src/read.rs, GpioState::read_pin_bits).
The mask is the u32 computation !(u32::MAX << bits_per_pin). -/
def GpioState.read_pin_bits (s : GpioState) (index : Nat) (base : Register)
    (pins_per_register bits_per_pin : Nat) : Option Nat := do
  let _ ← assert_pin_index index
  let base := base.addr / 4
  let register_index := base + index / pins_per_register
  let index := index % pins_per_register
  let value := s.data register_index >>> (bits_per_pin * index)
  let mask := u32not ((0xFFFFFFFF <<< bits_per_pin) % 2 ^ 32)
  pure (value &&& mask)

/-- Decoded function of a pin (src/read.rs, GpioState::pin_function); the
`as u8` cast is % 256 and the unwrap of the Result is the Option bind. -/
def GpioState.pin_function (s : GpioState) (index : Nat) : Option PinFunction := do
  let bits ← s.read_pin_bits index Register.GPFSEL0 10 3
  PinFunction.try_from_bits (bits % 256)

/-- Decoded level of a pin (src/read.rs, GpioState::pin_level). -/
def GpioState.pin_level (s : GpioState) (index : Nat) : Option Bool :=
  (s.read_pin_bits index Register.GPLEV0 32 1).map (· != 0)

/-- Decoded event flag of a pin (src/read.rs, GpioState::pin_event). -/
def GpioState.pin_event (s : GpioState) (index : Nat) : Option Bool :=
  (s.read_pin_bits index Register.GPEDS0 32 1).map (· != 0)

/-- Decoded rise-detect flag (src/read.rs, GpioState::pin_detect_rise). -/
def GpioState.pin_detect_rise (s : GpioState) (index : Nat) : Option Bool :=
  (s.read_pin_bits index Register.GPREN0 32 1).map (· != 0)

/-- Decoded fall-detect flag (src/read.rs, GpioState::pin_detect_fall). -/
def GpioState.pin_detect_fall (s : GpioState) (index : Nat) : Option Bool :=
  (s.read_pin_bits index Register.GPFEN0 32 1).map (· != 0)

/-- Decoded high-detect flag (src/read.rs, GpioState::pin_detect_high). -/
def GpioState.pin_detect_high (s : GpioState) (index : Nat) : Option Bool :=
  (s.read_pin_bits index Register.GPHEN0 32 1).map (· != 0)

/-- Decoded low-detect flag (src/read.rs, GpioState::pin_detect_low). -/
def GpioState.pin_detect_low (s : GpioState) (index : Nat) : Option Bool :=
  (s.read_pin_bits index Register.GPLEN0 32 1).map (· != 0)

/-- Decoded async-rise-detect flag (src/read.rs, GpioState::pin_detect_async_rise). -/
def GpioState.pin_detect_async_rise (s : GpioState) (index : Nat) : Option Bool :=
  (s.read_pin_bits index Register.GPAREN0 32 1).map (· != 0)

/-- Decoded async-fall-detect flag (src/read.rs, GpioState::pin_detect_async_fall). -/
def GpioState.pin_detect_async_fall (s : GpioState) (index : Nat) : Option Bool :=
  (s.read_pin_bits index Register.GPAFEN0 32 1).map (· != 0)

/-- Full decoded state of one pin (src/read.rs, GpioState::pin). -/
def GpioState.pin (s : GpioState) (index : Nat) : Option PinInfo := do
  let function ← s.pin_function index
  let level ← s.pin_level index
  let event ← s.pin_event index
  let detect_rise ← s.pin_detect_rise index
  let detect_fall ← s.pin_detect_fall index
  let detect_high ← s.pin_detect_high index
  let detect_low ← s.pin_detect_low index
  let detect_async_rise ← s.pin_detect_async_rise index
  let detect_async_fall ← s.pin_detect_async_fall index
  pure { function, level, event, detect_rise, detect_fall, detect_high,
         detect_low, detect_async_rise, detect_async_fall }

/-- Sequence of decoded pin states (src/read.rs, GpioState::pins).
The source iterates the exclusive Rust range 0..53. -/
def GpioState.pins (s : GpioState) : Option (List PinInfo) :=
  (List.range 53).mapM s.pin

/-- One register operation issued against the peripheral handle: the volatile
write, the atomic AND / OR read-modify-writes (src/lib.rs, Rpio::write_register,
Rpio::and_register, Rpio::or_register) and the timing busy-wait
(src/write.rs, wait_cycles). -/
inductive Op where
  | write_register (r : Register) (value : Nat)
  | and_register (r : Register) (value : Nat)
  | or_register (r : Register) (value : Nat)
  | wait_cycles (cycles : Nat)
deriving DecidableEq

/-- Point update of a word-indexed control block. -/
def updAt (f : Nat → Nat) (i v : Nat) : Nat → Nat := fun j => if j = i then v else f j

/-- Effect of one operation on an explicit control block (read-modify-write
interpretation of the volatile and atomic accesses of src/lib.rs, with no
concurrent interference). -/
def run_op (block : Nat → Nat) : Op → (Nat → Nat)
  | Op.write_register r v => updAt block r.word v
  | Op.and_register r v => updAt block r.word (block r.word &&& v)
  | Op.or_register r v => updAt block r.word (block r.word ||| v)
  | Op.wait_cycles _ => block

/-- Effect of a sequence of operations on a control block. -/
def run_trace (block : Nat → Nat) (ops : List Op) : Nat → Nat :=
  ops.foldl run_op block

/-- Level read of one pin through the handle (src/lib.rs, Rpio::read_level):
assert_pin_index, then one read of the banked level register. -/
def Rpio.read_level (block : Nat → Nat) (index : Nat) : Option Bool := do
  let _ ← assert_pin_index index
  let r ← Register.lev (index / 32)
  pure (((block r.word >>> (index % 32)) &&& 1) == 1)

/-- Level write of one pin through the handle (src/lib.rs, Rpio::set_level):
one write to the banked Set or Clear strobe register.  The source performs
no pin-index validation here. -/
def Rpio.set_level (index : Nat) (value : Bool) : Option Op :=
  let bits := 1 <<< (index % 32)
  ((if value then Register.set (index / 32) else Register.clr (index / 32)).map
    fun r => Op.write_register r bits)

/-- A batch of desired per-pin settings (src/write.rs, struct GpioConfig).
The Rust arrays [Option<T>; 54] are modelled as functions read only at
indices 0..53. -/
structure GpioConfig where
  function : Nat → Option PinFunction
  level : Nat → Option Bool
  detect_rise : Nat → Option Bool
  detect_fall : Nat → Option Bool
  detect_high : Nat → Option Bool
  detect_low : Nat → Option Bool
  detect_async_rise : Nat → Option Bool
  detect_async_fall : Nat → Option Bool

/-- The empty batch (src/write.rs, GpioConfig::new): every entry None. -/
def GpioConfig.new : GpioConfig :=
  { function := fun _ => none
    level := fun _ => none
    detect_rise := fun _ => none
    detect_fall := fun _ => none
    detect_high := fun _ => none
    detect_low := fun _ => none
    detect_async_rise := fun _ => none
    detect_async_fall := fun _ => none }

/-- Record a desired function (src/write.rs, GpioConfig::set_function); the
out-of-bounds indexing panic at pin 54 and above is none. -/
def GpioConfig.set_function (cfg : GpioConfig) (pin : Nat) (mode : PinFunction) :
    Option GpioConfig :=
  if pin < 54 then
    some { cfg with function := fun p => if p = pin then some mode else cfg.function p }
  else none

/-- Record a desired level (src/write.rs, GpioConfig::set_level). -/
def GpioConfig.set_level (cfg : GpioConfig) (pin : Nat) (level : Bool) :
    Option GpioConfig :=
  if pin < 54 then
    some { cfg with level := fun p => if p = pin then some level else cfg.level p }
  else none

/-- Record a desired rise-detect flag (src/write.rs, GpioConfig::set_detect_rise). -/
def GpioConfig.set_detect_rise (cfg : GpioConfig) (pin : Nat) (detect : Bool) :
    Option GpioConfig :=
  if pin < 54 then
    some { cfg with detect_rise := fun p => if p = pin then some detect else cfg.detect_rise p }
  else none

/-- Record a desired fall-detect flag (src/write.rs, GpioConfig::set_detect_fall). -/
def GpioConfig.set_detect_fall (cfg : GpioConfig) (pin : Nat) (detect : Bool) :
    Option GpioConfig :=
  if pin < 54 then
    some { cfg with detect_fall := fun p => if p = pin then some detect else cfg.detect_fall p }
  else none

/-- Record a desired high-detect flag (src/write.rs, GpioConfig::set_detect_high). -/
def GpioConfig.set_detect_high (cfg : GpioConfig) (pin : Nat) (detect : Bool) :
    Option GpioConfig :=
  if pin < 54 then
    some { cfg with detect_high := fun p => if p = pin then some detect else cfg.detect_high p }
  else none

/-- Record a desired low-detect flag (src/write.rs, GpioConfig::set_detect_low). -/
def GpioConfig.set_detect_low (cfg : GpioConfig) (pin : Nat) (detect : Bool) :
    Option GpioConfig :=
  if pin < 54 then
    some { cfg with detect_low := fun p => if p = pin then some detect else cfg.detect_low p }
  else none

/-- Record a desired async-rise-detect flag (src/write.rs, GpioConfig::set_detect_async_rise). -/
def GpioConfig.set_detect_async_rise (cfg : GpioConfig) (pin : Nat) (detect : Bool) :
    Option GpioConfig :=
  if pin < 54 then
    some { cfg with detect_async_rise := fun p => if p = pin then some detect else cfg.detect_async_rise p }
  else none

/-- Record a desired async-fall-detect flag (src/write.rs, GpioConfig::set_detect_async_fall). -/
def GpioConfig.set_detect_async_fall (cfg : GpioConfig) (pin : Nat) (detect : Bool) :
    Option GpioConfig :=
  if pin < 54 then
    some { cfg with detect_async_fall := fun p => if p = pin then some detect else cfg.detect_async_fall p }
  else none

/-- The mask accumulated by GpioConfig::apply_functions for one function-select
register: 0b111 << (pin % 10 * 3) OR-ed in for every pin of that register with
a pending function (src/write.rs, apply_functions, array mask). -/
def fsel_mask (cfg : GpioConfig) (reg : Nat) : Nat :=
  (List.range 54).foldl
    (fun m pin =>
      match cfg.function pin with
      | some _ => if pin / 10 = reg then m ||| (7 <<< (pin % 10 * 3)) else m
      | none => m) 0

/-- The value accumulated by GpioConfig::apply_functions for one function-select
register: the 3-bit code shifted to the pin field (src/write.rs, apply_functions,
array value). -/
def fsel_value (cfg : GpioConfig) (reg : Nat) : Nat :=
  (List.range 54).foldl
    (fun m pin =>
      match cfg.function pin with
      | some f => if pin / 10 = reg then m ||| (f.to_bits <<< (pin % 10 * 3)) else m
      | none => m) 0

/-- The touch mask accumulated by apply_registers for one bank: bit pin % 32
OR-ed in for every pin of the bank with a pending entry (src/write.rs,
apply_registers, array out_l). -/
def out_l (values : Nat → Option Bool) (reg : Nat) : Nat :=
  (List.range 54).foldl
    (fun m pin =>
      match values pin with
      | some _ => if pin / 32 = reg then m ||| (1 <<< (pin % 32)) else m
      | none => m) 0

/-- The enable mask accumulated by apply_registers for one bank: u32::from(bit)
shifted to position pin % 32 (src/write.rs, apply_registers, array out_h). -/
def out_h (values : Nat → Option Bool) (reg : Nat) : Nat :=
  (List.range 54).foldl
    (fun m pin =>
      match values pin with
      | some b => if pin / 32 = reg then m ||| ((if b then 1 else 0) <<< (pin % 32)) else m
      | none => m) 0

/-- Trace of GpioConfig::apply_functions (src/write.rs): for every i in 0..6,
one atomic AND with the complement of the mask, then one atomic OR with the
value.  The none arm mirrors the Register::fsel panic, unreachable for i < 6. -/
def apply_functions (cfg : GpioConfig) : List Op :=
  (List.range 6).flatMap fun i =>
    match Register.fsel i with
    | some r => [Op.and_register r (u32not (fsel_mask cfg i)),
                 Op.or_register r (fsel_value cfg i)]
    | none => []

/-- Trace of apply_registers (src/write.rs): for each of the 2 banks, one
atomic AND with the complement of out_l, then one atomic OR with out_h. -/
def apply_registers (register : Nat → Option Register) (values : Nat → Option Bool) :
    List Op :=
  (List.range 2).flatMap fun i =>
    match register i with
    | some r => [Op.and_register r (u32not (out_l values i)),
                 Op.or_register r (out_h values i)]
    | none => []

/-- Trace of GpioConfig::apply (src/write.rs): apply_functions, then
apply_registers for each of the six detect-flag families.  The level array is
not consumed anywhere, exactly as in the source. -/
def GpioConfig.apply (cfg : GpioConfig) : List Op :=
  apply_functions cfg
    ++ apply_registers Register.ren cfg.detect_rise
    ++ apply_registers Register.fen cfg.detect_fall
    ++ apply_registers Register.hen cfg.detect_high
    ++ apply_registers Register.len cfg.detect_low
    ++ apply_registers Register.aren cfg.detect_async_rise
    ++ apply_registers Register.afen cfg.detect_async_fall

/-- State reached by running the apply trace of a batch on a control block. -/
def apply_state (cfg : GpioConfig) (block : Nat → Nat) : Nat → Nat :=
  run_trace block cfg.apply

/-- A batch of desired pull modes (src/write.rs, struct GpioPullConfig). -/
structure GpioPullConfig where
  pull_mode : Nat → Option PullMode

/-- The empty pull batch (src/write.rs, GpioPullConfig::new). -/
def GpioPullConfig.new : GpioPullConfig := ⟨fun _ => none⟩

/-- Record a desired pull mode (src/write.rs, GpioPullConfig::set_pull_mode). -/
def GpioPullConfig.set_pull_mode (cfg : GpioPullConfig) (pin : Nat) (mode : PullMode) :
    Option GpioPullConfig :=
  if pin < 54 then
    some ⟨fun p => if p = pin then some mode else cfg.pull_mode p⟩
  else none

/-- Per-bank clock mask of the pins pinned to one pull mode (src/write.rs,
GpioPullConfig::apply, arrays float_clk / pull_up_clk / pull_down_clk):
bit i % 32 of bank i / 32 for every pin i with that pending mode. -/
def pull_clk (cfg : GpioPullConfig) (mode : PullMode) (bank : Nat) : Nat :=
  (List.range 54).foldl
    (fun m i =>
      match cfg.pull_mode i with
      | some md => if md = mode ∧ i / 32 = bank then m ||| (1 <<< (i % 32)) else m
      | none => m) 0

/-- Trace of GpioPullConfig::apply_pull_mode (src/write.rs): nothing when both
bank masks are zero, else the five-step strobe sequence with its two 150-cycle
busy-waits. -/
def apply_pull_mode (mode : Nat) (pins0 pins1 : Nat) : List Op :=
  if pins0 = 0 ∧ pins1 = 0 then []
  else
    [Op.write_register Register.GPPUDCLK0 0,
     Op.write_register Register.GPPUDCLK1 0,
     Op.write_register Register.GPPUD mode,
     Op.wait_cycles 150,
     Op.write_register Register.GPPUDCLK0 pins0,
     Op.write_register Register.GPPUDCLK1 pins1,
     Op.wait_cycles 150,
     Op.write_register Register.GPPUDCLK0 0,
     Op.write_register Register.GPPUDCLK1 0,
     Op.write_register Register.GPPUD 0]

/-- Trace of GpioPullConfig::apply (src/write.rs): the three modes in source
order Float (code 0b00), PullUp (code 0b10), PullDown (code 0b01). -/
def GpioPullConfig.apply (cfg : GpioPullConfig) : List Op :=
  apply_pull_mode 0b00 (pull_clk cfg PullMode.Float 0) (pull_clk cfg PullMode.Float 1)
    ++ apply_pull_mode 0b10 (pull_clk cfg PullMode.PullUp 0) (pull_clk cfg PullMode.PullUp 1)
    ++ apply_pull_mode 0b01 (pull_clk cfg PullMode.PullDown 0) (pull_clk cfg PullMode.PullDown 1)

/-! ### Bit-level helper lemmas -/

/-- Test bit of a 3-bit all-ones mask. -/
theorem testBit_seven (j : Nat) : (7 : Nat).testBit j = decide (j < 3) := by
  have h : (7 : Nat) = 2 ^ 3 - 1 := by norm_num
  rw [h, Nat.testBit_two_pow_sub_one]

/-- Test bit of the 32-bit all-ones word. -/
theorem testBit_ffff32 (j : Nat) : (0xFFFFFFFF : Nat).testBit j = decide (j < 32) := by
  have h : (0xFFFFFFFF : Nat) = 2 ^ 32 - 1 := by norm_num
  rw [h, Nat.testBit_two_pow_sub_one]

/-- Below bit 32, the u32 complement flips each bit. -/
theorem u32not_testBit (v b : Nat) (hb : b < 32) : (u32not v).testBit b = !v.testBit b := by
  simp [u32not, Nat.testBit_xor, testBit_ffff32, hb]

/-- The read_pin_bits mask for 1-bit fields evaluates to 1. -/
theorem mask_one_bit : u32not ((0xFFFFFFFF <<< 1) % 2 ^ 32) = 1 := by decide

/-- The read_pin_bits mask for 3-bit fields evaluates to 7. -/
theorem mask_three_bits : u32not ((0xFFFFFFFF <<< 3) % 2 ^ 32) = 7 := by decide

/-- A 1-bit field extraction is the test of that bit. -/
theorem and_one_bne (x s : Nat) : (((x >>> s) &&& 1) != 0) = x.testBit s := by
  simp [Nat.testBit, Nat.and_comm]

/-- Two words with the same three bits at a field have the same 3-bit extraction. -/
theorem extract3_congr (w w' s : Nat) (h : ∀ i, i < 3 → w.testBit (s + i) = w'.testBit (s + i)) :
    (w >>> s) &&& 7 = (w' >>> s) &&& 7 := by
  apply Nat.eq_of_testBit_eq
  intro i
  rcases Nat.lt_or_ge i 3 with hi | hi
  · simp only [Nat.testBit_and, Nat.testBit_shiftRight, testBit_seven]
    rw [h i hi]
  · have h7 : (7 : Nat).testBit i = false := by simp [testBit_seven]; omega
    simp [Nat.testBit_and, h7]

/-- A 3-bit extraction whose field bits agree with a value below 8 is that value. -/
theorem extract3_eq (w s c : Nat) (hc : c < 8)
    (h : ∀ i, i < 3 → w.testBit (s + i) = c.testBit i) : (w >>> s) &&& 7 = c := by
  apply Nat.eq_of_testBit_eq
  intro i
  rcases Nat.lt_or_ge i 3 with hi | hi
  · simp only [Nat.testBit_and, Nat.testBit_shiftRight, testBit_seven]
    rw [h i hi]
    simp [hi]
  · have h7 : (7 : Nat).testBit i = false := by simp [testBit_seven]; omega
    have hcb : c.testBit i = false :=
      Nat.testBit_lt_two_pow
        (lt_of_lt_of_le hc (Nat.pow_le_pow_right (by norm_num : 0 < 2) hi))
    simp [Nat.testBit_and, h7, hcb]

/-- Boolean identity behind idempotence of an AND-then-OR update. -/
theorem andor_step (w m v : Nat) : (((w &&& m) ||| v) &&& m) ||| v = (w &&& m) ||| v := by
  apply Nat.eq_of_testBit_eq
  intro i
  simp only [Nat.testBit_and, Nat.testBit_or]
  cases w.testBit i <;> cases m.testBit i <;> cases v.testBit i <;> rfl

/-- Folds with pointwise equal step functions agree. -/
theorem foldl_congr_fun {f g : Nat → Nat → Nat} (h : ∀ a p, f a p = g a p)
    (l : List Nat) (a : Nat) : l.foldl f a = l.foldl g a := by
  induction l generalizing a with
  | nil => rfl
  | cons x xs ih => simp only [List.foldl_cons, h, ih]

/-- OR-accumulation over the 54 pin indices. -/
def orFold (g : Nat → Nat) : Nat :=
  (List.range 54).foldl (fun a p => a ||| g p) 0

/-- A bit of an OR-fold is the disjunction of that bit over the contributions. -/
theorem orFold_testBit (g : Nat → Nat) (b : Nat) :
    (orFold g).testBit b = (List.range 54).any fun p => (g p).testBit b := by
  have key : ∀ (l : List Nat) (a : Nat),
      (l.foldl (fun acc p => acc ||| g p) a).testBit b =
        (a.testBit b || l.any fun p => (g p).testBit b) := by
    intro l
    induction l with
    | nil => simp
    | cons x xs ih => intro a; simp [List.foldl_cons, ih, Nat.testBit_or, Bool.or_assoc]
  simpa using key (List.range 54) 0

/-- A bit to which no pin contributes is clear in the OR-fold. -/
theorem orFold_testBit_zero (g : Nat → Nat) (b : Nat)
    (h : ∀ p, p < 54 → (g p).testBit b = false) : (orFold g).testBit b = false := by
  rw [orFold_testBit]
  simp only [List.any_eq_false]
  intro p hp
  simp [h p (List.mem_range.mp hp)]

/-- When a single pin can contribute to a bit, the OR-fold agrees with that
contribution at the bit. -/
theorem orFold_testBit_single (g : Nat → Nat) (b p : Nat) (hp : p < 54)
    (h : ∀ q, q < 54 → q ≠ p → (g q).testBit b = false) :
    (orFold g).testBit b = (g p).testBit b := by
  rw [orFold_testBit]
  rcases hb : (g p).testBit b with _ | _
  · simp only [List.any_eq_false]
    intro q hq
    rcases eq_or_ne q p with rfl | hne
    · simp [hb]
    · simp [h q (List.mem_range.mp hq) hne]
  · exact List.any_eq_true.mpr ⟨p, List.mem_range.mpr hp, hb⟩

/-! ### Characterization of the accumulated masks -/

/-- Per-pin contribution to fsel_mask. -/
def fsel_mask_contrib (cfg : GpioConfig) (reg pin : Nat) : Nat :=
  match cfg.function pin with
  | some _ => if pin / 10 = reg then 7 <<< (pin % 10 * 3) else 0
  | none => 0

/-- Per-pin contribution to fsel_value. -/
def fsel_value_contrib (cfg : GpioConfig) (reg pin : Nat) : Nat :=
  match cfg.function pin with
  | some f => if pin / 10 = reg then f.to_bits <<< (pin % 10 * 3) else 0
  | none => 0

/-- Per-pin contribution to out_l. -/
def out_l_contrib (values : Nat → Option Bool) (reg pin : Nat) : Nat :=
  match values pin with
  | some _ => if pin / 32 = reg then 1 <<< (pin % 32) else 0
  | none => 0

/-- Per-pin contribution to out_h. -/
def out_h_contrib (values : Nat → Option Bool) (reg pin : Nat) : Nat :=
  match values pin with
  | some b => if pin / 32 = reg then (if b then 1 else 0) <<< (pin % 32) else 0
  | none => 0

/-- Per-pin contribution to pull_clk. -/
def pull_clk_contrib (cfg : GpioPullConfig) (mode : PullMode) (bank pin : Nat) : Nat :=
  match cfg.pull_mode pin with
  | some md => if md = mode ∧ pin / 32 = bank then 1 <<< (pin % 32) else 0
  | none => 0

theorem fsel_value_contrib_some (cfg : GpioConfig) (reg pin : Nat) {f : PinFunction}
    (h : cfg.function pin = some f) :
    fsel_value_contrib cfg reg pin = if pin / 10 = reg then f.to_bits <<< (pin % 10 * 3) else 0 := by
  unfold fsel_value_contrib
  rw [h]

theorem out_h_contrib_some (values : Nat → Option Bool) (reg pin : Nat) {b : Bool}
    (h : values pin = some b) :
    out_h_contrib values reg pin =
      if pin / 32 = reg then (if b then 1 else 0) <<< (pin % 32) else 0 := by
  unfold out_h_contrib
  rw [h]

theorem pull_clk_contrib_some (cfg : GpioPullConfig) (mode : PullMode) (bank pin : Nat)
    {md : PullMode} (h : cfg.pull_mode pin = some md) :
    pull_clk_contrib cfg mode bank pin =
      if md = mode ∧ pin / 32 = bank then 1 <<< (pin % 32) else 0 := by
  unfold pull_clk_contrib
  rw [h]

theorem fsel_mask_eq_orFold (cfg : GpioConfig) (reg : Nat) :
    fsel_mask cfg reg = orFold (fsel_mask_contrib cfg reg) := by
  unfold fsel_mask orFold
  apply foldl_congr_fun
  intro a p
  unfold fsel_mask_contrib
  cases cfg.function p with
  | none => simp
  | some f => by_cases h : p / 10 = reg <;> simp [h]

theorem fsel_value_eq_orFold (cfg : GpioConfig) (reg : Nat) :
    fsel_value cfg reg = orFold (fsel_value_contrib cfg reg) := by
  unfold fsel_value orFold
  apply foldl_congr_fun
  intro a p
  unfold fsel_value_contrib
  cases cfg.function p with
  | none => simp
  | some f => by_cases h : p / 10 = reg <;> simp [h]

theorem out_l_eq_orFold (values : Nat → Option Bool) (reg : Nat) :
    out_l values reg = orFold (out_l_contrib values reg) := by
  unfold out_l orFold
  apply foldl_congr_fun
  intro a p
  unfold out_l_contrib
  cases values p with
  | none => simp
  | some b => by_cases h : p / 32 = reg <;> simp [h]

theorem out_h_eq_orFold (values : Nat → Option Bool) (reg : Nat) :
    out_h values reg = orFold (out_h_contrib values reg) := by
  unfold out_h orFold
  apply foldl_congr_fun
  intro a p
  unfold out_h_contrib
  cases values p with
  | none => simp
  | some b => by_cases h : p / 32 = reg <;> simp [h]

theorem pull_clk_eq_orFold (cfg : GpioPullConfig) (mode : PullMode) (bank : Nat) :
    pull_clk cfg mode bank = orFold (pull_clk_contrib cfg mode bank) := by
  unfold pull_clk orFold
  apply foldl_congr_fun
  intro a p
  unfold pull_clk_contrib
  cases cfg.pull_mode p with
  | none => simp
  | some md => by_cases h : md = mode ∧ p / 32 = bank <;> simp [h]

/-- Shift-left test bit, spelled with decide. -/
theorem testBit_shiftLeft_eq (c s b : Nat) :
    (c <<< s).testBit b = (decide (s ≤ b) && c.testBit (b - s)) := by
  simp [Nat.testBit_shiftLeft, ge_iff_le]

/-- Inside its own field, a shifted value exposes its own bits. -/
theorem testBit_shiftLeft_self (c s i : Nat) : (c <<< s).testBit (s + i) = c.testBit i := by
  simp [testBit_shiftLeft_eq, Nat.le_add_right, Nat.add_sub_cancel_left]

/-- Outside a k-bit window starting at s, a shifted k-bit value has no bits. -/
theorem testBit_shiftLeft_outside (c s b k : Nat) (hc : c < 2 ^ k)
    (h : ¬(s ≤ b ∧ b < s + k)) : (c <<< s).testBit b = false := by
  rw [testBit_shiftLeft_eq]
  rcases Nat.lt_or_ge b s with hb | hb
  · simp [Nat.not_le_of_lt hb]
  · have hk : k ≤ b - s := by omega
    have : c.testBit (b - s) = false :=
      Nat.testBit_lt_two_pow
        (lt_of_lt_of_le hc (Nat.pow_le_pow_right (by norm_num : 0 < 2) hk))
    simp [this]

/-- Every function code is a 3-bit value. -/
theorem to_bits_lt (f : PinFunction) : f.to_bits < 8 := by cases f <;> decide

/-- Field bits of the fsel mask are set for a pending pin. -/
theorem fsel_mask_bit_pending (cfg : GpioConfig) {p : Nat} (hp : p < 54)
    (hf : (cfg.function p).isSome) {i : Nat} (hi : i < 3) :
    (fsel_mask cfg (p / 10)).testBit (p % 10 * 3 + i) = true := by
  rw [fsel_mask_eq_orFold, orFold_testBit]
  apply List.any_eq_true.mpr
  refine ⟨p, List.mem_range.mpr hp, ?_⟩
  unfold fsel_mask_contrib
  rcases Option.isSome_iff_exists.mp hf with ⟨f, hf⟩
  rw [hf, if_pos rfl]
  rw [testBit_shiftLeft_eq]
  simp [testBit_seven]
  omega

/-- Field bits of the fsel mask are clear for a pin with no pending function. -/
theorem fsel_mask_bit_nopending (cfg : GpioConfig) {p : Nat} (hp : p < 54)
    (hf : cfg.function p = none) {i : Nat} (hi : i < 3) :
    (fsel_mask cfg (p / 10)).testBit (p % 10 * 3 + i) = false := by
  rw [fsel_mask_eq_orFold]
  apply orFold_testBit_zero
  intro q hq
  unfold fsel_mask_contrib
  cases hfq : cfg.function q with
  | none => simp
  | some g =>
    by_cases hreg : q / 10 = p / 10
    · rw [if_pos hreg]
      have hqp : q ≠ p := fun h => by rw [h, hf] at hfq; cases hfq
      apply testBit_shiftLeft_outside _ _ _ 3 (by norm_num)
      omega
    · simp [hreg]

/-- Field bits of the fsel value are the code bits of the pending function. -/
theorem fsel_value_bit_pending (cfg : GpioConfig) {p : Nat} (hp : p < 54) {f : PinFunction}
    (hf : cfg.function p = some f) {i : Nat} (hi : i < 3) :
    (fsel_value cfg (p / 10)).testBit (p % 10 * 3 + i) = f.to_bits.testBit i := by
  rw [fsel_value_eq_orFold]
  rw [orFold_testBit_single _ _ p hp ?uniq]
  case uniq =>
    intro q hq hqp
    cases hfq : cfg.function q with
    | none => simp [fsel_value_contrib, hfq]
    | some g =>
      rw [fsel_value_contrib_some cfg _ q hfq]
      by_cases hreg : q / 10 = p / 10
      · rw [if_pos hreg]
        apply testBit_shiftLeft_outside _ _ _ 3 (to_bits_lt g)
        omega
      · simp [hreg]
  · rw [fsel_value_contrib_some cfg _ p hf, if_pos rfl, testBit_shiftLeft_self]

/-- Field bits of the fsel value are clear for a pin with no pending function. -/
theorem fsel_value_bit_nopending (cfg : GpioConfig) {p : Nat} (hp : p < 54)
    (hf : cfg.function p = none) {i : Nat} (hi : i < 3) :
    (fsel_value cfg (p / 10)).testBit (p % 10 * 3 + i) = false := by
  rw [fsel_value_eq_orFold]
  apply orFold_testBit_zero
  intro q hq
  cases hfq : cfg.function q with
  | none => simp [fsel_value_contrib, hfq]
  | some g =>
    rw [fsel_value_contrib_some cfg _ q hfq]
    by_cases hreg : q / 10 = p / 10
    · rw [if_pos hreg]
      have hqp : q ≠ p := fun h => by rw [h, hf] at hfq; cases hfq
      apply testBit_shiftLeft_outside _ _ _ 3 (to_bits_lt g)
      omega
    · simp [hreg]

/-- The bank bit of out_l is set for a pin with a pending entry. -/
theorem out_l_bit_pending (values : Nat → Option Bool) {p : Nat} (hp : p < 54)
    (hv : (values p).isSome) : (out_l values (p / 32)).testBit (p % 32) = true := by
  rw [out_l_eq_orFold, orFold_testBit]
  apply List.any_eq_true.mpr
  refine ⟨p, List.mem_range.mpr hp, ?_⟩
  unfold out_l_contrib
  rcases Option.isSome_iff_exists.mp hv with ⟨b, hb⟩
  rw [hb, if_pos rfl]
  simpa using testBit_shiftLeft_self 1 (p % 32) 0

/-- The bank bit of out_l is clear for a pin with no pending entry. -/
theorem out_l_bit_nopending (values : Nat → Option Bool) {p : Nat} (hp : p < 54)
    (hv : values p = none) : (out_l values (p / 32)).testBit (p % 32) = false := by
  rw [out_l_eq_orFold]
  apply orFold_testBit_zero
  intro q hq
  unfold out_l_contrib
  cases hvq : values q with
  | none => simp
  | some b =>
    by_cases hreg : q / 32 = p / 32
    · rw [if_pos hreg]
      have hqp : q ≠ p := fun h => by rw [h, hv] at hvq; cases hvq
      apply testBit_shiftLeft_outside _ _ _ 1 (by norm_num)
      omega
    · simp [hreg]

/-- The bank bit of out_h is the pending boolean. -/
theorem out_h_bit_pending (values : Nat → Option Bool) {p : Nat} (hp : p < 54) {b : Bool}
    (hv : values p = some b) : (out_h values (p / 32)).testBit (p % 32) = b := by
  rw [out_h_eq_orFold]
  rw [orFold_testBit_single _ _ p hp ?uniq]
  case uniq =>
    intro q hq hqp
    cases hvq : values q with
    | none => simp [out_h_contrib, hvq]
    | some c =>
      rw [out_h_contrib_some values _ q hvq]
      by_cases hreg : q / 32 = p / 32
      · rw [if_pos hreg]
        apply testBit_shiftLeft_outside _ _ _ 1 (by cases c <;> norm_num)
        omega
      · simp [hreg]
  · rw [out_h_contrib_some values _ p hv, if_pos rfl]
    have := testBit_shiftLeft_self (if b then 1 else 0) (p % 32) 0
    rw [Nat.add_zero] at this
    rw [this]
    cases b <;> rfl

/-- The bank bit of out_h is clear for a pin with no pending entry. -/
theorem out_h_bit_nopending (values : Nat → Option Bool) {p : Nat} (hp : p < 54)
    (hv : values p = none) : (out_h values (p / 32)).testBit (p % 32) = false := by
  rw [out_h_eq_orFold]
  apply orFold_testBit_zero
  intro q hq
  cases hvq : values q with
  | none => simp [out_h_contrib, hvq]
  | some c =>
    rw [out_h_contrib_some values _ q hvq]
    by_cases hreg : q / 32 = p / 32
    · rw [if_pos hreg]
      have hqp : q ≠ p := fun h => by rw [h, hv] at hvq; cases hvq
      apply testBit_shiftLeft_outside _ _ _ 1 (by cases c <;> norm_num)
      omega
    · simp [hreg]

/-- The bank bit of a pull-clock mask records exactly whether the pin is pinned
to that mode. -/
theorem pull_clk_bit (cfg : GpioPullConfig) (mode : PullMode) {p : Nat} (hp : p < 54) :
    (pull_clk cfg mode (p / 32)).testBit (p % 32) =
      decide (cfg.pull_mode p = some mode) := by
  rw [pull_clk_eq_orFold]
  rw [orFold_testBit_single _ _ p hp ?uniq]
  case uniq =>
    intro q hq hqp
    cases hvq : cfg.pull_mode q with
    | none => simp [pull_clk_contrib, hvq]
    | some md =>
      rw [pull_clk_contrib_some cfg mode _ q hvq]
      by_cases hreg : md = mode ∧ q / 32 = p / 32
      · rw [if_pos hreg]
        apply testBit_shiftLeft_outside _ _ _ 1 (by norm_num)
        omega
      · simp [hreg]
  · cases hm : cfg.pull_mode p with
    | none => simp [pull_clk_contrib, hm]
    | some md =>
      rw [pull_clk_contrib_some cfg mode _ p hm]
      by_cases hmd : md = mode
      · subst hmd
        rw [if_pos ⟨rfl, rfl⟩]
        have := testBit_shiftLeft_self 1 (p % 32) 0
        rw [Nat.add_zero] at this
        simp [this]
      · rw [if_neg (by simp [hmd])]
        simp [Option.some_inj, hmd]

/-! ### Where the apply trace writes -/

/-- The register an operation addresses, if any. -/
def Op.reg : Op → Option Register
  | Op.write_register r _ => some r
  | Op.and_register r _ => some r
  | Op.or_register r _ => some r
  | Op.wait_cycles _ => none

/-- Whether an operation is a plain write_register (as opposed to an atomic
AND / OR or a busy-wait). -/
def Op.is_write : Op → Bool
  | Op.write_register _ _ => true
  | _ => false

/-- The word index an operation addresses, if any. -/
def Op.reg_word (op : Op) : Option Nat := op.reg.map Register.word

/-- Running a trace that never addresses a word leaves that word unchanged. -/
theorem run_trace_untouched (block : Nat → Nat) (ops : List Op) (j : Nat)
    (h : ∀ op ∈ ops, op.reg_word ≠ some j) : run_trace block ops j = block j := by
  induction ops generalizing block with
  | nil => rfl
  | cons op rest ih =>
    have h1 : op.reg_word ≠ some j := h op (List.mem_cons_self _ _)
    have h2 : ∀ o ∈ rest, o.reg_word ≠ some j := fun o ho => h o (List.mem_cons_of_mem _ ho)
    have hstep : run_op block op j = block j := by
      cases op with
      | wait_cycles c => rfl
      | write_register r v =>
        have hj : j ≠ r.word := fun hj => h1 (by simp [Op.reg_word, Op.reg, hj])
        simp [run_op, updAt, hj]
      | and_register r v =>
        have hj : j ≠ r.word := fun hj => h1 (by simp [Op.reg_word, Op.reg, hj])
        simp [run_op, updAt, hj]
      | or_register r v =>
        have hj : j ≠ r.word := fun hj => h1 (by simp [Op.reg_word, Op.reg, hj])
        simp [run_op, updAt, hj]
    calc run_trace block (op :: rest) j = run_trace (run_op block op) rest j := rfl
      _ = (run_op block op) j := ih (run_op block op) h2
      _ = block j := hstep

/-- The word indices addressed by a config apply trace: the six function-select
words and the twelve detect-flag bank words, each once for the AND and once for
the OR. -/
theorem apply_trace_words (cfg : GpioConfig) :
    cfg.apply.map Op.reg_word =
      [some 0, some 0, some 1, some 1, some 2, some 2, some 3, some 3,
       some 4, some 4, some 5, some 5,
       some 19, some 19, some 20, some 20,
       some 22, some 22, some 23, some 23,
       some 25, some 25, some 26, some 26,
       some 28, some 28, some 29, some 29,
       some 31, some 31, some 32, some 32,
       some 34, some 34, some 35, some 35] := rfl

/-- A word not in the touched list is unchanged by apply. -/
theorem apply_state_untouched (cfg : GpioConfig) (block : Nat → Nat) (j : Nat)
    (hj : some j ∉ cfg.apply.map Op.reg_word) : apply_state cfg block j = block j := by
  apply run_trace_untouched
  intro op hop heq
  exact hj (heq ▸ List.mem_map_of_mem _ hop)

/-- Value of a function-select word after apply. -/
theorem apply_state_fsel (cfg : GpioConfig) (block : Nat → Nat) (r : Nat) (hr : r < 6) :
    apply_state cfg block r =
      (block r &&& u32not (fsel_mask cfg r)) ||| fsel_value cfg r := by
  interval_cases r <;> rfl

/-- The batch entries of one detect-flag family (index 0 to 5: rise, fall,
high, low, async-rise, async-fall, the order GpioConfig::apply issues them). -/
def detect_field : Fin 6 → GpioConfig → (Nat → Option Bool)
  | 0, cfg => cfg.detect_rise
  | 1, cfg => cfg.detect_fall
  | 2, cfg => cfg.detect_high
  | 3, cfg => cfg.detect_low
  | 4, cfg => cfg.detect_async_rise
  | 5, cfg => cfg.detect_async_fall

/-- Bank-0 word index of one detect-flag family (GPREN0 19, GPFEN0 22,
GPHEN0 25, GPLEN0 28, GPAREN0 31, GPAFEN0 34). -/
def detect_base : Fin 6 → Nat
  | 0 => 19
  | 1 => 22
  | 2 => 25
  | 3 => 28
  | 4 => 31
  | 5 => 34

/-- Banked register constructor of one detect-flag family. -/
def detect_reg : Fin 6 → (Nat → Option Register)
  | 0 => Register.ren
  | 1 => Register.fen
  | 2 => Register.hen
  | 3 => Register.len
  | 4 => Register.aren
  | 5 => Register.afen

/-- Snapshot decoder of one detect-flag family. -/
def detect_decoder : Fin 6 → GpioState → Nat → Option Bool
  | 0 => GpioState.pin_detect_rise
  | 1 => GpioState.pin_detect_fall
  | 2 => GpioState.pin_detect_high
  | 3 => GpioState.pin_detect_low
  | 4 => GpioState.pin_detect_async_rise
  | 5 => GpioState.pin_detect_async_fall

/-- Value of a detect-flag bank word after apply. -/
theorem apply_state_detect (cfg : GpioConfig) (block : Nat → Nat) (fam : Fin 6)
    (r : Nat) (hr : r < 2) :
    apply_state cfg block (detect_base fam + r) =
      (block (detect_base fam + r) &&& u32not (out_l (detect_field fam cfg) r))
        ||| out_h (detect_field fam cfg) r := by
  fin_cases fam <;> interval_cases r <;> rfl

/-! ### Decode formulas -/

/-- Successful read_pin_bits, unfolded to the reference extraction. -/
theorem read_pin_bits_eq (s : GpioState) (p : Nat) (hp : p ≤ 53) (base : Register)
    (ppr bpp : Nat) :
    s.read_pin_bits p base ppr bpp =
      some ((s.data (base.addr / 4 + p / ppr) >>> (bpp * (p % ppr)))
        &&& u32not ((0xFFFFFFFF <<< bpp) % 2 ^ 32)) := by
  unfold GpioState.read_pin_bits assert_pin_index
  simp [hp]

/-- A banked 1-bit decoder is the test of bit p % 32 of word base + p / 32. -/
theorem pin_bank_formula (s : GpioState) (p : Nat) (hp : p ≤ 53) (base : Register) :
    (s.read_pin_bits p base 32 1).map (· != 0) =
      some ((s.data (base.addr / 4 + p / 32)).testBit (p % 32)) := by
  rw [read_pin_bits_eq s p hp]
  simp only [Option.map_some', mask_one_bit, Nat.one_mul]
  rw [and_one_bne]

/-- The level decoder reads bit p % 32 of word 13 + p / 32 (GPLEV0 at byte 0x34). -/
theorem pin_level_formula (s : GpioState) (p : Nat) (hp : p ≤ 53) :
    s.pin_level p = some ((s.data (13 + p / 32)).testBit (p % 32)) :=
  pin_bank_formula s p hp Register.GPLEV0

/-- The event decoder reads bit p % 32 of word 16 + p / 32 (GPEDS0 at byte 0x40). -/
theorem pin_event_formula (s : GpioState) (p : Nat) (hp : p ≤ 53) :
    s.pin_event p = some ((s.data (16 + p / 32)).testBit (p % 32)) :=
  pin_bank_formula s p hp Register.GPEDS0

/-- Each detect-flag decoder reads bit p % 32 of word detect_base + p / 32. -/
theorem detect_decoder_formula (fam : Fin 6) (s : GpioState) (p : Nat) (hp : p ≤ 53) :
    detect_decoder fam s p = some ((s.data (detect_base fam + p / 32)).testBit (p % 32)) := by
  fin_cases fam
  · exact pin_bank_formula s p hp Register.GPREN0
  · exact pin_bank_formula s p hp Register.GPFEN0
  · exact pin_bank_formula s p hp Register.GPHEN0
  · exact pin_bank_formula s p hp Register.GPLEN0
  · exact pin_bank_formula s p hp Register.GPAREN0
  · exact pin_bank_formula s p hp Register.GPAFEN0

/-- The function decoder extracts the 3-bit field of word p / 10 and maps it
through the code table. -/
theorem pin_function_formula (s : GpioState) (p : Nat) (hp : p ≤ 53) :
    s.pin_function p =
      PinFunction.try_from_bits ((s.data (p / 10) >>> (3 * (p % 10))) &&& 7) := by
  unfold GpioState.pin_function
  rw [read_pin_bits_eq s p hp]
  show PinFunction.try_from_bits
      ((s.data (Register.GPFSEL0.addr / 4 + p / 10) >>> (3 * (p % 10))
        &&& u32not ((0xFFFFFFFF <<< 3) % 2 ^ 32)) % 256) = _
  rw [mask_three_bits]
  have hlt : s.data (Register.GPFSEL0.addr / 4 + p / 10) >>> (3 * (p % 10)) &&& 7 < 256 :=
    lt_of_le_of_lt Nat.and_le_right (by norm_num)
  rw [Nat.mod_eq_of_lt hlt]
  norm_num [Register.addr]

/-! ### Zero masks for registers with no pending change -/

/-- With no pending function in a register, its accumulated mask is zero. -/
theorem fsel_mask_zero (cfg : GpioConfig) (r : Nat)
    (h : ∀ p, p < 54 → p / 10 = r → cfg.function p = none) : fsel_mask cfg r = 0 := by
  rw [fsel_mask_eq_orFold]
  apply Nat.eq_of_testBit_eq
  intro b
  rw [Nat.zero_testBit]
  apply orFold_testBit_zero
  intro q hq
  cases hfq : cfg.function q with
  | none => simp [fsel_mask_contrib, hfq]
  | some g =>
    unfold fsel_mask_contrib
    rw [hfq]
    by_cases hreg : q / 10 = r
    · rw [h q hq hreg] at hfq; cases hfq
    · simp [hreg]

/-- With no pending function in a register, its accumulated value is zero. -/
theorem fsel_value_zero (cfg : GpioConfig) (r : Nat)
    (h : ∀ p, p < 54 → p / 10 = r → cfg.function p = none) : fsel_value cfg r = 0 := by
  rw [fsel_value_eq_orFold]
  apply Nat.eq_of_testBit_eq
  intro b
  rw [Nat.zero_testBit]
  apply orFold_testBit_zero
  intro q hq
  cases hfq : cfg.function q with
  | none => simp [fsel_value_contrib, hfq]
  | some g =>
    rw [fsel_value_contrib_some cfg _ q hfq]
    by_cases hreg : q / 10 = r
    · rw [h q hq hreg] at hfq; cases hfq
    · simp [hreg]

/-- With no pending entry in a bank, its touch mask is zero. -/
theorem out_l_zero (values : Nat → Option Bool) (r : Nat)
    (h : ∀ p, p < 54 → p / 32 = r → values p = none) : out_l values r = 0 := by
  rw [out_l_eq_orFold]
  apply Nat.eq_of_testBit_eq
  intro b
  rw [Nat.zero_testBit]
  apply orFold_testBit_zero
  intro q hq
  cases hvq : values q with
  | none => simp [out_l_contrib, hvq]
  | some c =>
    unfold out_l_contrib
    rw [hvq]
    by_cases hreg : q / 32 = r
    · rw [h q hq hreg] at hvq; cases hvq
    · simp [hreg]

/-- With no pending entry in a bank, its enable mask is zero. -/
theorem out_h_zero (values : Nat → Option Bool) (r : Nat)
    (h : ∀ p, p < 54 → p / 32 = r → values p = none) : out_h values r = 0 := by
  rw [out_h_eq_orFold]
  apply Nat.eq_of_testBit_eq
  intro b
  rw [Nat.zero_testBit]
  apply orFold_testBit_zero
  intro q hq
  cases hvq : values q with
  | none => simp [out_h_contrib, hvq]
  | some c =>
    rw [out_h_contrib_some values _ q hvq]
    by_cases hreg : q / 32 = r
    · rw [h q hq hreg] at hvq; cases hvq
    · simp [hreg]

/-- An AND with the complement of zero followed by an OR with zero preserves a
u32 word. -/
theorem and_u32not_zero (w : Nat) (hw : w < 2 ^ 32) : (w &&& u32not 0) ||| 0 = w := by
  rw [Nat.or_zero]
  have h1 : u32not 0 = 2 ^ 32 - 1 := by decide
  rw [h1, Nat.and_pow_two_sub_one_eq_mod, Nat.mod_eq_of_lt hw]

/-! ### Decoding after apply -/

/-- Round trip of the function code table. -/
theorem try_from_to_bits (f : PinFunction) : PinFunction.try_from_bits f.to_bits = some f := by
  cases f <;> rfl

/-- After apply, a pin with a pending function decodes to that function. -/
theorem pin_function_after_pending (cfg : GpioConfig) (block : Nat → Nat) (p : Nat)
    (f : PinFunction) (hp : p < 54) (hf : cfg.function p = some f) :
    (GpioState.from_data (apply_state cfg block)).pin_function p = some f := by
  rw [pin_function_formula _ p (by omega)]
  show PinFunction.try_from_bits ((apply_state cfg block (p / 10) >>> (3 * (p % 10))) &&& 7) = _
  rw [apply_state_fsel cfg block (p / 10) (by omega)]
  have hcode :
      (((block (p / 10) &&& u32not (fsel_mask cfg (p / 10))) ||| fsel_value cfg (p / 10))
         >>> (3 * (p % 10))) &&& 7 = f.to_bits := by
    have e : 3 * (p % 10) = p % 10 * 3 := Nat.mul_comm 3 _
    rw [e]
    apply extract3_eq _ _ _ (to_bits_lt f)
    intro i hi
    rw [Nat.testBit_or, Nat.testBit_and, u32not_testBit _ _ (by omega),
        fsel_mask_bit_pending cfg hp (by rw [hf]; rfl) hi,
        fsel_value_bit_pending cfg hp hf hi]
    simp
  rw [hcode, try_from_to_bits]

/-- After apply, a pin with no pending function decodes to its old function. -/
theorem pin_function_after_none (cfg : GpioConfig) (block : Nat → Nat) (p : Nat)
    (hp : p < 54) (hf : cfg.function p = none) :
    (GpioState.from_data (apply_state cfg block)).pin_function p =
      (GpioState.from_data block).pin_function p := by
  rw [pin_function_formula _ p (by omega), pin_function_formula _ p (by omega)]
  show PinFunction.try_from_bits ((apply_state cfg block (p / 10) >>> (3 * (p % 10))) &&& 7) =
    PinFunction.try_from_bits ((block (p / 10) >>> (3 * (p % 10))) &&& 7)
  rw [apply_state_fsel cfg block (p / 10) (by omega)]
  congr 1
  have e : 3 * (p % 10) = p % 10 * 3 := Nat.mul_comm 3 _
  rw [e]
  apply extract3_congr
  intro i hi
  rw [Nat.testBit_or, Nat.testBit_and, u32not_testBit _ _ (by omega),
      fsel_mask_bit_nopending cfg hp hf hi,
      fsel_value_bit_nopending cfg hp hf hi]
  simp

/-- After apply, a pin with a pending detect flag decodes that flag to the
pending boolean. -/
theorem detect_after_pending (cfg : GpioConfig) (block : Nat → Nat) (fam : Fin 6)
    (p : Nat) (b : Bool) (hp : p < 54) (hv : detect_field fam cfg p = some b) :
    detect_decoder fam (GpioState.from_data (apply_state cfg block)) p = some b := by
  rw [detect_decoder_formula fam _ p (by omega)]
  show some ((apply_state cfg block (detect_base fam + p / 32)).testBit (p % 32)) = _
  rw [apply_state_detect cfg block fam (p / 32) (by omega)]
  rw [Nat.testBit_or, Nat.testBit_and, u32not_testBit _ _ (by omega),
      out_l_bit_pending _ hp (by rw [hv]; rfl),
      out_h_bit_pending _ hp hv]
  simp

/-- After apply, a pin with no pending detect flag keeps its old decoded flag. -/
theorem detect_after_none (cfg : GpioConfig) (block : Nat → Nat) (fam : Fin 6)
    (p : Nat) (hp : p < 54) (hv : detect_field fam cfg p = none) :
    detect_decoder fam (GpioState.from_data (apply_state cfg block)) p =
      detect_decoder fam (GpioState.from_data block) p := by
  rw [detect_decoder_formula fam _ p (by omega), detect_decoder_formula fam _ p (by omega)]
  show some ((apply_state cfg block (detect_base fam + p / 32)).testBit (p % 32)) =
    some ((block (detect_base fam + p / 32)).testBit (p % 32))
  rw [apply_state_detect cfg block fam (p / 32) (by omega)]
  rw [Nat.testBit_or, Nat.testBit_and, u32not_testBit _ _ (by omega),
      out_l_bit_nopending _ hp hv,
      out_h_bit_nopending _ hp hv]
  simp

/-- Apply never touches the level words (GPLEV0 is word 13, GPLEV1 word 14). -/
theorem pin_level_after (cfg : GpioConfig) (block : Nat → Nat) (p : Nat) (hp : p < 54) :
    (GpioState.from_data (apply_state cfg block)).pin_level p =
      (GpioState.from_data block).pin_level p := by
  rw [pin_level_formula _ p (by omega), pin_level_formula _ p (by omega)]
  show some ((apply_state cfg block (13 + p / 32)).testBit (p % 32)) = _
  rw [apply_state_untouched cfg block (13 + p / 32) (by rw [apply_trace_words]; simp; omega)]
  rfl

/-- Apply never touches the event words (GPEDS0 is word 16, GPEDS1 word 17). -/
theorem pin_event_after (cfg : GpioConfig) (block : Nat → Nat) (p : Nat) (hp : p < 54) :
    (GpioState.from_data (apply_state cfg block)).pin_event p =
      (GpioState.from_data block).pin_event p := by
  rw [pin_event_formula _ p (by omega), pin_event_formula _ p (by omega)]
  show some ((apply_state cfg block (16 + p / 32)).testBit (p % 32)) = _
  rw [apply_state_untouched cfg block (16 + p / 32) (by rw [apply_trace_words]; simp; omega)]
  rfl

/-! ### Idempotence and no-pending preservation -/

/-- Applying twice leaves a function-select word as applying once. -/
theorem apply_state_fsel_idem (cfg : GpioConfig) (block : Nat → Nat) (r : Nat) (hr : r < 6) :
    apply_state cfg (apply_state cfg block) r = apply_state cfg block r := by
  rw [apply_state_fsel cfg _ r hr, apply_state_fsel cfg block r hr, andor_step]

/-- Applying twice leaves a detect bank word as applying once. -/
theorem apply_state_detect_idem (cfg : GpioConfig) (block : Nat → Nat) (fam : Fin 6)
    (r : Nat) (hr : r < 2) :
    apply_state cfg (apply_state cfg block) (detect_base fam + r) =
      apply_state cfg block (detect_base fam + r) := by
  rw [apply_state_detect cfg _ fam r hr, apply_state_detect cfg block fam r hr, andor_step]

/-- Applying the same batch twice gives the same block as applying it once. -/
theorem apply_state_idem (cfg : GpioConfig) (block : Nat → Nat) :
    apply_state cfg (apply_state cfg block) = apply_state cfg block := by
  funext j
  by_cases hj : j ∈ ([0, 1, 2, 3, 4, 5, 19, 20, 22, 23, 25, 26, 28, 29, 31, 32, 34, 35] : List Nat)
  · simp only [List.mem_cons, List.not_mem_nil, or_false] at hj
    rcases hj with rfl | rfl | rfl | rfl | rfl | rfl | rfl | rfl | rfl | rfl | rfl | rfl | rfl | rfl | rfl | rfl | rfl | rfl
    · exact apply_state_fsel_idem cfg block 0 (by norm_num)
    · exact apply_state_fsel_idem cfg block 1 (by norm_num)
    · exact apply_state_fsel_idem cfg block 2 (by norm_num)
    · exact apply_state_fsel_idem cfg block 3 (by norm_num)
    · exact apply_state_fsel_idem cfg block 4 (by norm_num)
    · exact apply_state_fsel_idem cfg block 5 (by norm_num)
    · exact apply_state_detect_idem cfg block 0 0 (by norm_num)
    · exact apply_state_detect_idem cfg block 0 1 (by norm_num)
    · exact apply_state_detect_idem cfg block 1 0 (by norm_num)
    · exact apply_state_detect_idem cfg block 1 1 (by norm_num)
    · exact apply_state_detect_idem cfg block 2 0 (by norm_num)
    · exact apply_state_detect_idem cfg block 2 1 (by norm_num)
    · exact apply_state_detect_idem cfg block 3 0 (by norm_num)
    · exact apply_state_detect_idem cfg block 3 1 (by norm_num)
    · exact apply_state_detect_idem cfg block 4 0 (by norm_num)
    · exact apply_state_detect_idem cfg block 4 1 (by norm_num)
    · exact apply_state_detect_idem cfg block 5 0 (by norm_num)
    · exact apply_state_detect_idem cfg block 5 1 (by norm_num)
  · have hj2 : (some j) ∉ cfg.apply.map Op.reg_word := by
      rw [apply_trace_words]
      simp only [List.mem_cons, List.not_mem_nil, or_false, Option.some.injEq] at hj ⊢
      push_neg at hj ⊢
      omega
    rw [apply_state_untouched cfg _ j hj2, apply_state_untouched cfg block j hj2]

/-- A function-select register with no pending change keeps its value. -/
theorem apply_state_fsel_nopending (cfg : GpioConfig) (block : Nat → Nat) (r : Nat)
    (hr : r < 6) (hw : block r < 2 ^ 32)
    (h : ∀ p, p < 54 → p / 10 = r → cfg.function p = none) :
    apply_state cfg block r = block r := by
  rw [apply_state_fsel cfg block r hr, fsel_mask_zero cfg r h, fsel_value_zero cfg r h,
      and_u32not_zero _ hw]

/-- A detect bank register with no pending change keeps its value. -/
theorem apply_state_detect_nopending (cfg : GpioConfig) (block : Nat → Nat) (fam : Fin 6)
    (r : Nat) (hr : r < 2) (hw : block (detect_base fam + r) < 2 ^ 32)
    (h : ∀ p, p < 54 → p / 32 = r → detect_field fam cfg p = none) :
    apply_state cfg block (detect_base fam + r) = block (detect_base fam + r) := by
  rw [apply_state_detect cfg block fam r hr, out_l_zero _ r h, out_h_zero _ r h,
      and_u32not_zero _ hw]

/-- Applying the all-None batch changes no word of a u32 block. -/
theorem apply_state_new (block : Nat → Nat) (hw : ∀ i, block i < 2 ^ 32) :
    apply_state GpioConfig.new block = block := by
  funext j
  by_cases hj : j ∈ ([0, 1, 2, 3, 4, 5, 19, 20, 22, 23, 25, 26, 28, 29, 31, 32, 34, 35] : List Nat)
  · simp only [List.mem_cons, List.not_mem_nil, or_false] at hj
    rcases hj with rfl | rfl | rfl | rfl | rfl | rfl | rfl | rfl | rfl | rfl | rfl | rfl | rfl | rfl | rfl | rfl | rfl | rfl
    · exact apply_state_fsel_nopending _ block 0 (by norm_num) (hw 0) (fun p _ _ => rfl)
    · exact apply_state_fsel_nopending _ block 1 (by norm_num) (hw 1) (fun p _ _ => rfl)
    · exact apply_state_fsel_nopending _ block 2 (by norm_num) (hw 2) (fun p _ _ => rfl)
    · exact apply_state_fsel_nopending _ block 3 (by norm_num) (hw 3) (fun p _ _ => rfl)
    · exact apply_state_fsel_nopending _ block 4 (by norm_num) (hw 4) (fun p _ _ => rfl)
    · exact apply_state_fsel_nopending _ block 5 (by norm_num) (hw 5) (fun p _ _ => rfl)
    · exact apply_state_detect_nopending _ block 0 0 (by norm_num) (hw 19) (fun p _ _ => rfl)
    · exact apply_state_detect_nopending _ block 0 1 (by norm_num) (hw 20) (fun p _ _ => rfl)
    · exact apply_state_detect_nopending _ block 1 0 (by norm_num) (hw 22) (fun p _ _ => rfl)
    · exact apply_state_detect_nopending _ block 1 1 (by norm_num) (hw 23) (fun p _ _ => rfl)
    · exact apply_state_detect_nopending _ block 2 0 (by norm_num) (hw 25) (fun p _ _ => rfl)
    · exact apply_state_detect_nopending _ block 2 1 (by norm_num) (hw 26) (fun p _ _ => rfl)
    · exact apply_state_detect_nopending _ block 3 0 (by norm_num) (hw 28) (fun p _ _ => rfl)
    · exact apply_state_detect_nopending _ block 3 1 (by norm_num) (hw 29) (fun p _ _ => rfl)
    · exact apply_state_detect_nopending _ block 4 0 (by norm_num) (hw 31) (fun p _ _ => rfl)
    · exact apply_state_detect_nopending _ block 4 1 (by norm_num) (hw 32) (fun p _ _ => rfl)
    · exact apply_state_detect_nopending _ block 5 0 (by norm_num) (hw 34) (fun p _ _ => rfl)
    · exact apply_state_detect_nopending _ block 5 1 (by norm_num) (hw 35) (fun p _ _ => rfl)
  · have hj2 : (some j) ∉ GpioConfig.new.apply.map Op.reg_word := by
      rw [apply_trace_words]
      simp only [List.mem_cons, List.not_mem_nil, or_false, Option.some.injEq] at hj ⊢
      push_neg at hj ⊢
      omega
    exact apply_state_untouched _ block j hj2

/-- The config apply trace contains no plain write_register operation. -/
theorem apply_no_writes (cfg : GpioConfig) :
    cfg.apply.all (fun op => ! op.is_write) = true := rfl

/-- The operations a config apply issues on a function-select register: exactly
one atomic AND with the complement of the accumulated mask, then one atomic OR
with the accumulated value. -/
theorem apply_filter_fsel (cfg : GpioConfig) (r : Nat) (hr : r < 6) :
    ∃ R, Register.fsel r = some R ∧
      cfg.apply.filter (fun op => op.reg == some R) =
        [Op.and_register R (u32not (fsel_mask cfg r)), Op.or_register R (fsel_value cfg r)] := by
  interval_cases r
  · exact ⟨Register.GPFSEL0, rfl, rfl⟩
  · exact ⟨Register.GPFSEL1, rfl, rfl⟩
  · exact ⟨Register.GPFSEL2, rfl, rfl⟩
  · exact ⟨Register.GPFSEL3, rfl, rfl⟩
  · exact ⟨Register.GPFSEL4, rfl, rfl⟩
  · exact ⟨Register.GPFSEL5, rfl, rfl⟩

/-- The operations a config apply issues on a detect bank register: exactly one
atomic AND with the complement of the touch mask, then one atomic OR with the
enable mask. -/
theorem apply_filter_detect (cfg : GpioConfig) (fam : Fin 6) (r : Nat) (hr : r < 2) :
    ∃ R, detect_reg fam r = some R ∧
      cfg.apply.filter (fun op => op.reg == some R) =
        [Op.and_register R (u32not (out_l (detect_field fam cfg) r)),
         Op.or_register R (out_h (detect_field fam cfg) r)] := by
  fin_cases fam <;> interval_cases r <;> exact ⟨_, rfl, rfl⟩

/-- The code table is defined on every 3-bit pattern. -/
theorem try_from_bits_isSome (v : Nat) (hv : v < 8) :
    (PinFunction.try_from_bits v).isSome = true := by
  interval_cases v <;> rfl

/-! ### Concrete inputs for claim theorems and witnesses -/

/-- An all-zero snapshot. -/
def zero_state : GpioState := GpioState.from_data fun _ => 0

/-- A batch whose only pending entry is level true on pin 0. -/
def cfg_level0 : GpioConfig :=
  { GpioConfig.new with level := fun p => if p = 0 then some true else GpioConfig.new.level p }

/-- A batch whose only pending entry is function Output on pin 5. -/
def cfg_fun5 : GpioConfig :=
  { GpioConfig.new with function := fun p => if p = 5 then some PinFunction.Output else none }

/-- The spec's pull example: pin 2 to PullUp, pin 40 to PullDown. -/
def pull_example : GpioPullConfig :=
  ⟨fun p => if p = 2 then some PullMode.PullUp
    else if p = 40 then some PullMode.PullDown else none⟩

/-! ### Claim theorems -/

/-- C1: the claim says GpioConfig::apply applies pending level entries through
the Set/Clear strobe registers.  The code never reads the level array: the
apply trace of a batch whose only pending entry is a level is identical to the
empty batch's trace, and no apply trace contains any write_register operation
(in particular none to GPSET0 or GPCLR0). -/
theorem c1_level_entries_never_applied :
    cfg_level0.apply = GpioConfig.new.apply ∧
    cfg_level0.apply.all (fun op => ! op.is_write) = true ∧
    cfg_level0.apply.filter (fun op => op.reg == some Register.GPSET0) = [] ∧
    cfg_level0.apply.filter (fun op => op.reg == some Register.GPCLR0) = [] := by
  refine ⟨rfl, rfl, ?_, ?_⟩ <;> decide

/-- C2: the claim says pins() returns 54 entries for indices 0 through 53.
The code iterates the exclusive range 0..53, so the sequence has 53 entries
and omits pin 53, whose state is itself perfectly decodable. -/
theorem c2_pins_has_53_entries :
    (zero_state.pins).map List.length = some 53 ∧
    (zero_state.pin 53).isSome = true := by
  refine ⟨?_, rfl⟩
  decide

/-- C3: the claim says pin 54 raises a ProgrammingError in every public
per-pin operation.  Rpio::set_level performs no pin-index validation: at index
54 it silently writes bit 22 of the bank-1 strobe register, while read_level,
the snapshot accessors and the batch setters do fail, and index 53 is accepted
everywhere. -/
theorem c3_set_level_skips_pin_check :
    Rpio.set_level 54 true = some (Op.write_register Register.GPSET1 (1 <<< 22)) ∧
    Rpio.set_level 54 false = some (Op.write_register Register.GPCLR1 (1 <<< 22)) ∧
    Rpio.read_level (fun _ => 0) 54 = none ∧
    zero_state.pin_level 54 = none ∧
    zero_state.pin 54 = none ∧
    (GpioConfig.new.set_function 54 PinFunction.Output).isSome = false ∧
    (GpioConfig.new.set_level 54 true).isSome = false ∧
    (GpioPullConfig.new.set_pull_mode 54 PullMode.PullUp).isSome = false ∧
    Rpio.read_level (fun _ => 0) 53 = some false ∧
    (zero_state.pin 53).isSome = true ∧
    (GpioConfig.new.set_level 53 true).isSome = true ∧
    Rpio.set_level 53 true = some (Op.write_register Register.GPSET1 (1 <<< 21)) := by
  refine ⟨rfl, rfl, rfl, rfl, ?_, rfl, rfl, rfl, ?_, rfl, rfl, rfl⟩ <;> decide

/-- C4 counterexample: the claim says an all-None batch issues zero register
writes and zero atomic operations; the empty batch's trace in fact holds 36
atomic operations. -/
theorem c4_counterexample_empty_batch_ops :
    GpioConfig.new.apply.length = 36 ∧ GpioConfig.new.apply ≠ [] := by
  refine ⟨rfl, ?_⟩
  decide

/-- C4 (amended): no apply trace contains a write_register operation; a
register with no pending change receives only a no-op atomic AND with the
all-ones word and a no-op atomic OR with zero, so its value is unchanged, and
the all-None batch leaves every word of a u32 block unchanged. -/
theorem c4_no_pending_registers_unchanged :
    (∀ cfg : GpioConfig, cfg.apply.all (fun op => ! op.is_write) = true) ∧
    (∀ block : Nat → Nat, (∀ i, block i < 2 ^ 32) →
      apply_state GpioConfig.new block = block) ∧
    (∀ (cfg : GpioConfig) (block : Nat → Nat) (r : Nat), r < 6 → block r < 2 ^ 32 →
      (∀ p, p < 54 → p / 10 = r → cfg.function p = none) →
      apply_state cfg block r = block r) ∧
    (∀ (cfg : GpioConfig) (block : Nat → Nat) (fam : Fin 6) (r : Nat), r < 2 →
      block (detect_base fam + r) < 2 ^ 32 →
      (∀ p, p < 54 → p / 32 = r → detect_field fam cfg p = none) →
      apply_state cfg block (detect_base fam + r) = block (detect_base fam + r)) :=
  ⟨apply_no_writes, apply_state_new,
   fun cfg block r hr hw h => apply_state_fsel_nopending cfg block r hr hw h,
   fun cfg block fam r hr hw h => apply_state_detect_nopending cfg block fam r hr hw h⟩

/-- C4 witness: the empty batch applied to the all-zero block changes nothing. -/
theorem c4_witness_empty_batch :
    apply_state GpioConfig.new (fun _ => 0) = (fun _ => 0) :=
  c4_no_pending_registers_unchanged.2.1 (fun _ => 0) (fun _ => by norm_num)

/-- C5: every function-select register and every detect bank register with a
pending change receives exactly one atomic AND with the complement of its
changed-fields mask followed by exactly one atomic OR, whatever the number of
changed pins; and every decoded attribute of a pin whose batch entry is None
(function, the six detect flags, and the untouched level and event registers)
is unchanged by apply. -/
theorem c5_one_and_one_or_and_frame :
    (∀ (cfg : GpioConfig) (r : Nat), r < 6 →
      (∃ p, p < 54 ∧ p / 10 = r ∧ (cfg.function p).isSome) →
      ∃ R, Register.fsel r = some R ∧
        cfg.apply.filter (fun op => op.reg == some R) =
          [Op.and_register R (u32not (fsel_mask cfg r)),
           Op.or_register R (fsel_value cfg r)]) ∧
    (∀ (cfg : GpioConfig) (fam : Fin 6) (r : Nat), r < 2 →
      (∃ p, p < 54 ∧ p / 32 = r ∧ (detect_field fam cfg p).isSome) →
      ∃ R, detect_reg fam r = some R ∧
        cfg.apply.filter (fun op => op.reg == some R) =
          [Op.and_register R (u32not (out_l (detect_field fam cfg) r)),
           Op.or_register R (out_h (detect_field fam cfg) r)]) ∧
    (∀ (cfg : GpioConfig) (block : Nat → Nat) (p : Nat), p < 54 →
      (cfg.function p = none →
        (GpioState.from_data (apply_state cfg block)).pin_function p =
          (GpioState.from_data block).pin_function p) ∧
      (∀ fam : Fin 6, detect_field fam cfg p = none →
        detect_decoder fam (GpioState.from_data (apply_state cfg block)) p =
          detect_decoder fam (GpioState.from_data block) p) ∧
      (GpioState.from_data (apply_state cfg block)).pin_level p =
        (GpioState.from_data block).pin_level p ∧
      (GpioState.from_data (apply_state cfg block)).pin_event p =
        (GpioState.from_data block).pin_event p) :=
  ⟨fun cfg r hr _ => apply_filter_fsel cfg r hr,
   fun cfg fam r hr _ => apply_filter_detect cfg fam r hr,
   fun cfg block p hp =>
    ⟨fun h => pin_function_after_none cfg block p hp h,
     fun fam h => detect_after_none cfg block fam p hp h,
     pin_level_after cfg block p hp,
     pin_event_after cfg block p hp⟩⟩

/-- C5 witness: for the batch setting only pin 5's function, GPFSEL0 receives
exactly its AND-then-OR pair, and pin 7's level decode is unchanged. -/
theorem c5_witness_fun5 :
    (∃ R, Register.fsel 0 = some R ∧
      cfg_fun5.apply.filter (fun op => op.reg == some R) =
        [Op.and_register R (u32not (fsel_mask cfg_fun5 0)),
         Op.or_register R (fsel_value cfg_fun5 0)]) ∧
    (GpioState.from_data (apply_state cfg_fun5 (fun _ => 0))).pin_level 7 =
      (GpioState.from_data (fun _ => 0)).pin_level 7 :=
  ⟨c5_one_and_one_or_and_frame.1 cfg_fun5 0 (by norm_num) ⟨5, by norm_num, by norm_num, rfl⟩,
   (c5_one_and_one_or_and_frame.2.2 cfg_fun5 (fun _ => 0) 7 (by norm_num)).2.2.1⟩

/-- C6: GpioPullConfig::apply partitions the pinned modes into per-bank masks
(bit p % 32 of bank p / 32 records exactly the pins pinned to the mode); a
mode with an all-zero mask produces no operations, a mode with a non-zero mask
produces exactly the five-step strobe sequence; and the example batch
(pin 2 PullUp, pin 40 PullDown) produces exactly the PullUp sequence with
bank-0 mask bit 2 followed by the PullDown sequence with bank-1 mask bit 8,
with legacy codes Float=0b00, PullDown=0b01, PullUp=0b10. -/
theorem c6_pull_partition_and_sequences :
    (∀ mode : Nat, apply_pull_mode mode 0 0 = []) ∧
    (∀ mode pins0 pins1 : Nat, ¬(pins0 = 0 ∧ pins1 = 0) →
      apply_pull_mode mode pins0 pins1 =
        [Op.write_register Register.GPPUDCLK0 0,
         Op.write_register Register.GPPUDCLK1 0,
         Op.write_register Register.GPPUD mode,
         Op.wait_cycles 150,
         Op.write_register Register.GPPUDCLK0 pins0,
         Op.write_register Register.GPPUDCLK1 pins1,
         Op.wait_cycles 150,
         Op.write_register Register.GPPUDCLK0 0,
         Op.write_register Register.GPPUDCLK1 0,
         Op.write_register Register.GPPUD 0]) ∧
    (∀ (cfg : GpioPullConfig) (mode : PullMode) (p : Nat), p < 54 →
      (pull_clk cfg mode (p / 32)).testBit (p % 32) =
        decide (cfg.pull_mode p = some mode)) ∧
    pull_example.apply =
      [Op.write_register Register.GPPUDCLK0 0,
       Op.write_register Register.GPPUDCLK1 0,
       Op.write_register Register.GPPUD 2,
       Op.wait_cycles 150,
       Op.write_register Register.GPPUDCLK0 4,
       Op.write_register Register.GPPUDCLK1 0,
       Op.wait_cycles 150,
       Op.write_register Register.GPPUDCLK0 0,
       Op.write_register Register.GPPUDCLK1 0,
       Op.write_register Register.GPPUD 0,
       Op.write_register Register.GPPUDCLK0 0,
       Op.write_register Register.GPPUDCLK1 0,
       Op.write_register Register.GPPUD 1,
       Op.wait_cycles 150,
       Op.write_register Register.GPPUDCLK0 0,
       Op.write_register Register.GPPUDCLK1 256,
       Op.wait_cycles 150,
       Op.write_register Register.GPPUDCLK0 0,
       Op.write_register Register.GPPUDCLK1 0,
       Op.write_register Register.GPPUD 0] := by
  refine ⟨fun mode => rfl, fun mode p0 p1 h => by simp [apply_pull_mode, h],
    fun cfg mode p hp => pull_clk_bit cfg mode hp, ?_⟩
  decide

/-- C6 witness: a non-zero bank-0 mask yields the full strobe sequence. -/
theorem c6_witness_sequence :
    apply_pull_mode 2 4 0 =
      [Op.write_register Register.GPPUDCLK0 0,
       Op.write_register Register.GPPUDCLK1 0,
       Op.write_register Register.GPPUD 2,
       Op.wait_cycles 150,
       Op.write_register Register.GPPUDCLK0 4,
       Op.write_register Register.GPPUDCLK1 0,
       Op.wait_cycles 150,
       Op.write_register Register.GPPUDCLK0 0,
       Op.write_register Register.GPPUDCLK1 0,
       Op.write_register Register.GPPUD 0] :=
  c6_pull_partition_and_sequences.2.1 2 4 0 (by decide)

/-- C7: for each of the eight PinFunction values, decoding the encoding gives
back the value, and the exact 3-bit codes are Input=000, Output=001, Alt0=100,
Alt1=101, Alt2=110, Alt3=111, Alt4=011, Alt5=010. -/
theorem c7_function_code_roundtrip :
    (∀ f : PinFunction, PinFunction.try_from_bits f.to_bits = some f) ∧
    PinFunction.Input.to_bits = 0b000 ∧
    PinFunction.Output.to_bits = 0b001 ∧
    PinFunction.Alt0.to_bits = 0b100 ∧
    PinFunction.Alt1.to_bits = 0b101 ∧
    PinFunction.Alt2.to_bits = 0b110 ∧
    PinFunction.Alt3.to_bits = 0b111 ∧
    PinFunction.Alt4.to_bits = 0b011 ∧
    PinFunction.Alt5.to_bits = 0b010 :=
  ⟨try_from_to_bits, rfl, rfl, rfl, rfl, rfl, rfl, rfl, rfl⟩

/-- C8: for every snapshot and pin index up to 53, every per-pin boolean
accessor is exactly the reference bit extraction at its documented bank-0
word index (GPLEV0 13, GPEDS0 16, GPREN0 19, GPFEN0 22, GPHEN0 25, GPLEN0 28,
GPAREN0 31, GPAFEN0 34, the byte offsets divided by 4), and pin_function is
the 3-bit field extraction at word 0 + p / 10 mapped through the code table. -/
theorem c8_decode_is_reference_extraction (s : GpioState) (p : Nat) (hp : p ≤ 53) :
    s.pin_level p = some (((s.data (13 + p / 32) >>> (p % 32)) &&& 1) != 0) ∧
    s.pin_event p = some (((s.data (16 + p / 32) >>> (p % 32)) &&& 1) != 0) ∧
    s.pin_detect_rise p = some (((s.data (19 + p / 32) >>> (p % 32)) &&& 1) != 0) ∧
    s.pin_detect_fall p = some (((s.data (22 + p / 32) >>> (p % 32)) &&& 1) != 0) ∧
    s.pin_detect_high p = some (((s.data (25 + p / 32) >>> (p % 32)) &&& 1) != 0) ∧
    s.pin_detect_low p = some (((s.data (28 + p / 32) >>> (p % 32)) &&& 1) != 0) ∧
    s.pin_detect_async_rise p = some (((s.data (31 + p / 32) >>> (p % 32)) &&& 1) != 0) ∧
    s.pin_detect_async_fall p = some (((s.data (34 + p / 32) >>> (p % 32)) &&& 1) != 0) ∧
    s.pin_function p =
      PinFunction.try_from_bits ((s.data (0 + p / 10) >>> (p % 10 * 3)) &&& 0b111) := by
  refine ⟨?_, ?_, ?_, ?_, ?_, ?_, ?_, ?_, ?_⟩
  · unfold GpioState.pin_level
    rw [read_pin_bits_eq s p hp, mask_one_bit]
    simp only [Option.map_some', Nat.one_mul]
    norm_num [Register.addr]
  · unfold GpioState.pin_event
    rw [read_pin_bits_eq s p hp, mask_one_bit]
    simp only [Option.map_some', Nat.one_mul]
    norm_num [Register.addr]
  · unfold GpioState.pin_detect_rise
    rw [read_pin_bits_eq s p hp, mask_one_bit]
    simp only [Option.map_some', Nat.one_mul]
    norm_num [Register.addr]
  · unfold GpioState.pin_detect_fall
    rw [read_pin_bits_eq s p hp, mask_one_bit]
    simp only [Option.map_some', Nat.one_mul]
    norm_num [Register.addr]
  · unfold GpioState.pin_detect_high
    rw [read_pin_bits_eq s p hp, mask_one_bit]
    simp only [Option.map_some', Nat.one_mul]
    norm_num [Register.addr]
  · unfold GpioState.pin_detect_low
    rw [read_pin_bits_eq s p hp, mask_one_bit]
    simp only [Option.map_some', Nat.one_mul]
    norm_num [Register.addr]
  · unfold GpioState.pin_detect_async_rise
    rw [read_pin_bits_eq s p hp, mask_one_bit]
    simp only [Option.map_some', Nat.one_mul]
    norm_num [Register.addr]
  · unfold GpioState.pin_detect_async_fall
    rw [read_pin_bits_eq s p hp, mask_one_bit]
    simp only [Option.map_some', Nat.one_mul]
    norm_num [Register.addr]
  · rw [pin_function_formula s p hp]
    simp [Nat.mul_comm]

/-- C8 witness: the decode formulas at pin 33 of the all-zero snapshot. -/
theorem c8_witness_pin33 :
    zero_state.pin_level 33 = some (((zero_state.data (13 + 33 / 32) >>> (33 % 32)) &&& 1) != 0) :=
  (c8_decode_is_reference_extraction zero_state 33 (by norm_num)).1

/-- C9: pin_function never hits its decode-error branch: the extracted 3-bit
field is below 8 and try_from_bits is defined on all eight patterns, so the
unwrap cannot panic for any block and any pin index up to 53. -/
theorem c9_pin_function_never_panics (s : GpioState) (p : Nat) (hp : p ≤ 53) :
    (s.pin_function p).isSome = true := by
  rw [pin_function_formula s p hp]
  have h8 : (s.data (p / 10) >>> (3 * (p % 10))) &&& 7 < 8 :=
    lt_of_le_of_lt Nat.and_le_right (by norm_num)
  exact try_from_bits_isSome _ h8

/-- C9 witness: pin 53 of the all-zero snapshot decodes a function. -/
theorem c9_witness_pin53 : (zero_state.pin_function 53).isSome = true :=
  c9_pin_function_never_panics zero_state 53 (by norm_num)

/-- C10: modelling the atomic operations as read-modify-writes with no
interference, after apply every pin with a pending function decodes to it,
every pin with a pending detect flag decodes that flag to the pending boolean,
and applying the same batch twice yields the same block as applying it once. -/
theorem c10_apply_correct_idempotent :
    (∀ (cfg : GpioConfig) (block : Nat → Nat) (p : Nat) (f : PinFunction),
      p < 54 → cfg.function p = some f →
      (GpioState.from_data (apply_state cfg block)).pin_function p = some f) ∧
    (∀ (cfg : GpioConfig) (block : Nat → Nat) (fam : Fin 6) (p : Nat) (b : Bool),
      p < 54 → detect_field fam cfg p = some b →
      detect_decoder fam (GpioState.from_data (apply_state cfg block)) p = some b) ∧
    (∀ (cfg : GpioConfig) (block : Nat → Nat),
      apply_state cfg (apply_state cfg block) = apply_state cfg block) :=
  ⟨fun cfg block p f hp hf => pin_function_after_pending cfg block p f hp hf,
   fun cfg block fam p b hp hv => detect_after_pending cfg block fam p b hp hv,
   apply_state_idem⟩

/-- C10 witness: applying the pin-5 Output batch to the all-zero block makes
pin 5 decode to Output. -/
theorem c10_witness_fun5 :
    (GpioState.from_data (apply_state cfg_fun5 (fun _ => 0))).pin_function 5 =
      some PinFunction.Output :=
  c10_apply_correct_idempotent.1 cfg_fun5 (fun _ => 0) 5 PinFunction.Output (by norm_num) rfl
